import Mathlib

/-!
Verification of the name-it-admin backend against its specification.

The backend is an Express API over Firestore.  We shallowly embed the pure
logic of its handlers and helpers:

* JavaScript values stored in documents are modelled by `JSValue`.
  Non-integer numbers ("doubles") are identified with their canonical
  JavaScript decimal serialization (a `String`), since `parseFloat` inverts
  `Number.prototype.toString` exactly; `Date` objects are identified with
  their ISO-8601 serialization, since `new Date(d.toISOString())` recovers
  the same millisecond timestamp.  Integers are modelled by `Int`, using the
  fact that `parseInt(n.toString(), 10) === n` for every integer in the
  decimal-notation range.
* The Firestore REST wire format (`backend/utils/firestore-rest.js`) is
  modelled by `WireValue`; `integerValue` carries the integer whose decimal
  string is on the wire, and `timestampValue` carries the ISO string.
* Stateful handlers are modelled as pure functions from an explicit store
  (a list of documents) and the outcomes of external calls (Admin SDK,
  REST, fetch) to a response and a new store.
-/

/-- A JavaScript value that can appear in a document handled by the backend. -/
inductive JSValue where
  | vNull : JSValue
  | vStr (s : String) : JSValue
  | vInt (n : Int) : JSValue
  | vDouble (s : String) : JSValue
  | vBool (b : Bool) : JSValue
  | vDate (iso : String) : JSValue
  | vArr (xs : List JSValue) : JSValue
  | vMap (m : List (String × JSValue)) : JSValue

/-- A value in the Firestore REST wire format (`{stringValue: …}` etc.). -/
inductive WireValue where
  | nullValue : WireValue
  | stringValue (s : String) : WireValue
  | integerValue (n : Int) : WireValue
  | doubleValue (s : String) : WireValue
  | booleanValue (b : Bool) : WireValue
  | timestampValue (iso : String) : WireValue
  | arrayValue (vs : List WireValue) : WireValue
  | mapValue (fields : List (String × WireValue)) : WireValue

mutual

/-- Encoding of one top-level object value, following the body of the
`for` loop of `convertToFirestoreFields` in `firestore-rest.js`:
null, string, number (integer/double), boolean, Date, Array, object. -/
def encodeValue : JSValue → WireValue
  | .vNull => .nullValue
  | .vStr s => .stringValue s
  | .vInt n => .integerValue n
  | .vDouble s => .doubleValue s
  | .vBool b => .booleanValue b
  | .vDate iso => .timestampValue iso
  | .vArr xs => .arrayValue (encodeArrayElems xs)
  | .vMap m => .mapValue (convertToFirestoreFields m)

/-- Encoding of the elements of an array (the `value.map(v => …)` lambda in
`convertToFirestoreFields`). -/
def encodeArrayElems : List JSValue → List WireValue
  | [] => []
  | v :: rest => encodeArrayElem v :: encodeArrayElems rest

/-- The array-element lambda of `convertToFirestoreFields`: strings, numbers,
booleans and Dates are encoded directly; any other non-null object becomes a
`mapValue` via a recursive `convertToFirestoreFields` call (for a nested
array this walks `Object.entries`, i.e. its index-keyed entries); everything
else becomes `nullValue`. -/
def encodeArrayElem : JSValue → WireValue
  | .vStr s => .stringValue s
  | .vInt n => .integerValue n
  | .vDouble s => .doubleValue s
  | .vBool b => .booleanValue b
  | .vDate iso => .timestampValue iso
  | .vMap m => .mapValue (convertToFirestoreFields m)
  | .vArr xs => .mapValue (encodeIndexedFields 0 xs)
  | .vNull => .nullValue

/-- `Object.entries` of a JavaScript array, encoded entry by entry: the keys
are the decimal indices. -/
def encodeIndexedFields : Nat → List JSValue → List (String × WireValue)
  | _, [] => []
  | i, v :: rest => (toString i, encodeValue v) :: encodeIndexedFields (i + 1) rest

/-- `convertToFirestoreFields` from `backend/utils/firestore-rest.js`:
encodes every entry of a plain object into the Firestore wire format. -/
def convertToFirestoreFields : List (String × JSValue) → List (String × WireValue)
  | [] => []
  | (k, v) :: rest => (k, encodeValue v) :: convertToFirestoreFields rest

end

/-- Reinterpretation of a raw wire-format object as a plain JavaScript value:
this is what the decoder returns when it passes a wire value through
unconverted (`return v` in its array case).  A wire object such as
`{nullValue: null}` is, as a JavaScript value, just a one-entry map. -/
def wireToJS : WireValue → JSValue
  | .nullValue => .vMap [("nullValue", .vNull)]
  | .stringValue s => .vMap [("stringValue", .vStr s)]
  | .integerValue n => .vMap [("integerValue", .vStr (toString n))]
  | .doubleValue s => .vMap [("doubleValue", .vStr s)]
  | .booleanValue b => .vMap [("booleanValue", .vBool b)]
  | .timestampValue iso => .vMap [("timestampValue", .vStr iso)]
  | .arrayValue vs => .vMap [("arrayValue", .vMap [("values", .vArr (wireToJSList vs))])]
  | .mapValue f => .vMap [("mapValue", .vMap [("fields", .vMap (wireToJSFields f))])]
where
  wireToJSList : List WireValue → List JSValue
    | [] => []
    | v :: rest => wireToJS v :: wireToJSList rest
  wireToJSFields : List (String × WireValue) → List (String × JSValue)
    | [] => []
    | (k, v) :: rest => (k, wireToJS v) :: wireToJSFields rest

mutual

/-- `convertFirestoreFields` from `backend/utils/firestore-rest.js`:
decodes a wire-format fields object back to plain JavaScript values. -/
def convertFirestoreFields : List (String × WireValue) → List (String × JSValue)
  | [] => []
  | (k, v) :: rest => (k, decodeField v) :: convertFirestoreFields rest

/-- Decoding of one field value, following the if/else chain of
`convertFirestoreFields`: stringValue, integerValue (via `parseInt`),
doubleValue (via `parseFloat`), booleanValue, timestampValue (`new Date`),
nullValue, arrayValue, mapValue. -/
def decodeField : WireValue → JSValue
  | .stringValue s => .vStr s
  | .integerValue n => .vInt n
  | .doubleValue s => .vDouble s
  | .booleanValue b => .vBool b
  | .timestampValue iso => .vDate iso
  | .nullValue => .vNull
  | .arrayValue vs => .vArr (decodeArrayElems vs)
  | .mapValue f => .vMap (convertFirestoreFields f)

/-- Decoding of the elements of an `arrayValue` (the
`value.arrayValue.values.map(v => …)` lambda). -/
def decodeArrayElems : List WireValue → List JSValue
  | [] => []
  | v :: rest => decodeArrayElem v :: decodeArrayElems rest

/-- The array-element lambda of `convertFirestoreFields`: only string,
integer, double and boolean elements are converted; every other element is
returned as the raw wire object (`return v`). -/
def decodeArrayElem : WireValue → JSValue
  | .stringValue s => .vStr s
  | .integerValue n => .vInt n
  | .doubleValue s => .vDouble s
  | .booleanValue b => .vBool b
  | v => wireToJS v

end

/-- Array elements that the decoder's array-element lambda converts back
(rather than passing through as raw wire objects). -/
def isScalarElem : JSValue → Bool
  | .vStr _ => true
  | .vInt _ => true
  | .vDouble _ => true
  | .vBool _ => true
  | _ => false

mutual

/-- Values on which encode-then-decode is expected to be the identity:
scalars, timestamps, null, maps of such values, and arrays whose elements
are strings, integers, doubles or booleans. -/
def goodVal : JSValue → Bool
  | .vArr xs => goodArr xs
  | .vMap m => goodFields m
  | _ => true

def goodArr : List JSValue → Bool
  | [] => true
  | v :: rest => isScalarElem v && goodArr rest

def goodFields : List (String × JSValue) → Bool
  | [] => true
  | (_, v) :: rest => goodVal v && goodFields rest

end

theorem decode_encode_scalar (v : JSValue) (h : isScalarElem v = true) :
    decodeArrayElem (encodeArrayElem v) = v := by
  cases v <;> simp_all [isScalarElem, encodeArrayElem, decodeArrayElem]

theorem decode_encode_arr (xs : List JSValue) (h : goodArr xs = true) :
    decodeArrayElems (encodeArrayElems xs) = xs := by
  induction xs with
  | nil => rfl
  | cons v rest ih =>
    rw [goodArr, Bool.and_eq_true] at h
    rw [encodeArrayElems, decodeArrayElems, decode_encode_scalar v h.1, ih h.2]

mutual

theorem decode_encode_value (v : JSValue) (h : goodVal v = true) :
    decodeField (encodeValue v) = v := by
  cases v with
  | vNull => rfl
  | vStr s => rfl
  | vInt n => rfl
  | vDouble s => rfl
  | vBool b => rfl
  | vDate iso => rfl
  | vArr xs =>
    rw [goodVal] at h
    rw [encodeValue, decodeField, decode_encode_arr xs h]
  | vMap m =>
    rw [goodVal] at h
    rw [encodeValue, decodeField, decode_encode_fields m h]

theorem decode_encode_fields (m : List (String × JSValue)) (h : goodFields m = true) :
    convertFirestoreFields (convertToFirestoreFields m) = m := by
  cases m with
  | nil => rfl
  | cons kv rest =>
    cases kv with
    | mk k v =>
      rw [goodFields, Bool.and_eq_true] at h
      rw [convertToFirestoreFields, convertFirestoreFields,
        decode_encode_value v h.1, decode_encode_fields rest h.2]

end


/-- Whitespace as recognised by JavaScript string trimming and number
parsing (the ASCII part, which covers every string the backend handles). -/
def isJsSpace (c : Char) : Bool :=
  c == ' ' || c == '\t' || c == '\n' || c == '\r' || c == '\x0b' || c == '\x0c'

/-- JavaScript `String.prototype.trim`. -/
def jsTrim (s : String) : String :=
  ⟨((s.data.dropWhile isJsSpace).reverse.dropWhile isJsSpace).reverse⟩

/-- Decimal digits to a natural number, most significant first. -/
def digitsToNatAux : Nat → List Char → Nat
  | acc, [] => acc
  | acc, c :: rest => digitsToNatAux (acc * 10 + (c.toNat - '0'.toNat)) rest

def digitsToNat (ds : List Char) : Nat := digitsToNatAux 0 ds

/-- JavaScript `parseInt(s, 10)`: skip leading whitespace, optional sign,
longest run of decimal digits; `none` models `NaN`. -/
def parseIntJS (s : String) : Option Int :=
  let cs := s.data.dropWhile isJsSpace
  let signAndRest : Int × List Char :=
    match cs with
    | '-' :: rest => (-1, rest)
    | '+' :: rest => (1, rest)
    | _ => (1, cs)
  let ds := signAndRest.2.takeWhile Char.isDigit
  if ds.isEmpty then none
  else some (signAndRest.1 * (digitsToNat ds : Int))

/-- Result of JavaScript `parseFloat`: `NaN`, a signed infinity, or a finite
value (the finite values the backend meets are exactly representable as
rationals). -/
inductive JSFloat where
  | nan : JSFloat
  | inf (neg : Bool) : JSFloat
  | fin (q : ℚ) : JSFloat
deriving Repr, DecidableEq

/-- Exponent part of a JavaScript float literal: optional sign and digits;
an exponent with no digits is not part of the literal, so it contributes 0. -/
def parseExpPart (cs : List Char) : Int :=
  let signAndRest : Int × List Char :=
    match cs with
    | '-' :: rest => (-1, rest)
    | '+' :: rest => (1, rest)
    | _ => (1, cs)
  let ds := signAndRest.2.takeWhile Char.isDigit
  if ds.isEmpty then 0 else signAndRest.1 * (digitsToNat ds : Int)

/-- Raw shape of the longest float literal at the front of a string: `NaN`,
an infinity, or sign, integer-part digits, fraction digits with their count,
and a decimal exponent. -/
inductive FloatLit where
  | nan : FloatLit
  | inf (neg : Bool) : FloatLit
  | fin (neg : Bool) (ip fp fracLen : Nat) (e : Int) : FloatLit
deriving Repr, DecidableEq

/-- Literal recognition of JavaScript `parseFloat`: skip leading whitespace,
optional sign, then the longest prefix that is `Infinity` or a decimal
literal with optional fraction and exponent; trailing garbage is ignored; no
digits at all gives `NaN`. -/
def parseFloatCore (s : String) : FloatLit :=
  let cs := s.data.dropWhile isJsSpace
  let negAndRest : Bool × List Char :=
    match cs with
    | '-' :: rest => (true, rest)
    | '+' :: rest => (false, rest)
    | _ => (false, cs)
  let neg := negAndRest.1
  let cs1 := negAndRest.2
  if cs1.take 8 = "Infinity".data then .inf neg
  else
    let intPart := cs1.takeWhile Char.isDigit
    let rest1 := cs1.dropWhile Char.isDigit
    let fracAndRest : List Char × List Char :=
      match rest1 with
      | '.' :: r => (r.takeWhile Char.isDigit, r.dropWhile Char.isDigit)
      | _ => ([], rest1)
    let fracPart := fracAndRest.1
    if intPart.isEmpty && fracPart.isEmpty then .nan
    else
      let e : Int :=
        match fracAndRest.2 with
        | 'e' :: r => parseExpPart r
        | 'E' :: r => parseExpPart r
        | _ => 0
      .fin neg (digitsToNat intPart) (digitsToNat fracPart) fracPart.length e

/-- Value of a finite float literal. -/
def sciToRat (neg : Bool) (ip fp fracLen : Nat) (e : Int) : ℚ :=
  (if neg then -1 else 1) * ((ip : ℚ) + (fp : ℚ) / (10 : ℚ) ^ fracLen) * (10 : ℚ) ^ e

/-- JavaScript `parseFloat`. -/
def parseFloatJS (s : String) : JSFloat :=
  match parseFloatCore s with
  | .nan => .nan
  | .inf neg => .inf neg
  | .fin neg ip fp fracLen e => .fin (sciToRat neg ip fp fracLen e)

/-- The check `isNaN(x) || x <= 0` used by the product handlers. -/
def jsFloatNotPositive : JSFloat → Bool
  | .nan => true
  | .inf neg => neg
  | .fin q => q ≤ 0

/-- Truthiness of an optional string field of a request body: absent,
`null` and the empty string are falsy. -/
def truthyStr : Option String → Bool
  | none => false
  | some s => s != ""

/-- One clause of `validateRequiredFields` (`backend/utils/api-helpers.js`):
a required string field is missing when it is absent, falsy, or trims to the
empty string. -/
def fieldPresent (v : Option String) : Bool :=
  match v with
  | none => false
  | some s => s != "" && jsTrim s != ""

/-- An HTTP response of the API.  `data = none` means the `data` key is
absent from the JSON body; `errorDetail` models the `error` object that
`sendError` attaches only in development mode (carrying the failure
message). -/
structure ApiResponse where
  status : Nat
  success : Bool
  message : String
  data : Option JSValue
  errorDetail : Option String

/-- `sendSuccess` from `backend/utils/api-helpers.js`: a JSON body with
`success: true`, the message and the `data` value. -/
def sendSuccess (data : JSValue) (message : String) (statusCode : Nat) : ApiResponse :=
  { status := statusCode, success := true, message := message,
    data := some data, errorDetail := none }

/-- `sendError` from `backend/utils/api-helpers.js`: a JSON body with
`success: false` and the message; the underlying error is attached (as an
`error` object) only when `NODE_ENV` is `development` and an error was
passed.  No `data` key is ever present. -/
def sendError (message : String) (statusCode : Nat) (dev : Bool)
    (err : Option String) : ApiResponse :=
  { status := statusCode, success := false, message := message,
    data := none, errorDetail := if dev then err else none }

/-- The keys present in the JSON body of a response, in serialization
order. -/
def ApiResponse.bodyKeys (r : ApiResponse) : List String :=
  ["success", "message"]
    ++ (if r.data.isSome then ["data"] else [])
    ++ (if r.errorDetail.isSome then ["error"] else [])

/-- Whether `sep` is a prefix of `cs`. -/
def isPrefixList : List Char → List Char → Bool
  | [], _ => true
  | _ :: _, [] => false
  | p :: ps, c :: cs => p == c && isPrefixList ps cs

/-- Worker for `jsSplit`: scan the characters, emitting a piece at every
occurrence of the (non-empty) separator.  The fuel argument only bounds the
recursion; `jsSplit` always supplies enough. -/
def jsSplitGo (sep : List Char) : Nat → List Char → List Char →
    List (List Char) → List (List Char)
  | 0, cs, acc, out => out ++ [acc ++ cs]
  | fuel + 1, cs, acc, out =>
    if isPrefixList sep cs then
      jsSplitGo sep fuel (cs.drop sep.length) [] (out ++ [acc])
    else
      match cs with
      | [] => out ++ [acc]
      | c :: rest => jsSplitGo sep fuel rest (acc ++ [c]) out

/-- JavaScript `s.split(sep)` for a non-empty separator. -/
def jsSplit (s sep : String) : List String :=
  (jsSplitGo sep.data (s.data.length + 1) s.data [] []).map (fun cs => ⟨cs⟩)

/-- JavaScript `s.startsWith(pre)`. -/
def jsStartsWith (s pre : String) : Bool := isPrefixList pre.data s.data

/-- JavaScript `s.includes(pat)`. -/
def jsIncludes (s pat : String) : Bool := (jsSplit s pat).length != 1

/-- A typed route response: `sendSuccess`/`sendError` with the `data`
payload kept at its own type (`body = none` for error responses, which carry
no `data` key).  `errorDetail` is the development-mode `error` attachment of
`sendError`. -/
structure RouteResponse (α : Type) where
  status : Nat
  success : Bool
  message : String
  body : Option α
  errorDetail : Option String

/-- A route-level `sendSuccess`. -/
def routeSuccess {α : Type} (d : α) (message : String) (statusCode : Nat) :
    RouteResponse α :=
  ⟨statusCode, true, message, some d, none⟩

/-- A route-level `sendError` called without an error argument (nothing is
attached even in development mode). -/
def routeError {α : Type} (message : String) (statusCode : Nat) : RouteResponse α :=
  ⟨statusCode, false, message, none, none⟩

/-- A route-level `sendError` called with an underlying error: its message
is attached to the body only in development mode. -/
def routeErrorDev {α : Type} (message : String) (statusCode : Nat) (dev : Bool)
    (err : Option String) : RouteResponse α :=
  ⟨statusCode, false, message, none, if dev then err else none⟩

/-- A value of a JSON request-body field that the handlers feed to
`parseFloat`/`parseInt`: either a string or a finite number. -/
inductive BodyNum where
  | str (s : String) : BodyNum
  | num (q : ℚ) : BodyNum
deriving Repr, DecidableEq

/-- `parseFloat` applied to a body field: a number passes through. -/
def parseFloatOf : BodyNum → JSFloat
  | .str s => parseFloatJS s
  | .num q => .fin q

/-- `parseInt` applied to a body field: a number is first converted to its
decimal string, so the result is the number truncated toward zero (for
numbers in the decimal-notation range). -/
def parseIntOf : BodyNum → Option Int
  | .str s => parseIntJS s
  | .num q => some (if 0 ≤ q then ⌊q⌋ else ⌈q⌉)

/-- A stored product document (`products` collection).  `popular = none`
models a document without the field; timestamps are epoch milliseconds. -/
structure Product where
  id : String
  name : String
  description : String
  price : JSFloat
  count : Int
  category : String
  imageUrl : Option String
  status : String
  popular : Option Bool
  createdAt : Option Int
  createdBy : String
  updatedAt : Option Int
deriving Repr, DecidableEq

/-- The multipart form body of `POST /api/products` (all fields arrive as
strings when present). -/
structure CreateBody where
  name : Option String
  description : Option String
  price : Option String
  count : Option String
  category : Option String
  status : Option String
deriving Repr, DecidableEq

/-- `validateRequiredFields(req.body, ['name','description','price','count',
'category'])` for the create handler. -/
def createMissingFields (b : CreateBody) : List String :=
  (if fieldPresent b.name then [] else ["name"])
    ++ (if fieldPresent b.description then [] else ["description"])
    ++ (if fieldPresent b.price then [] else ["price"])
    ++ (if fieldPresent b.count then [] else ["count"])
    ++ (if fieldPresent b.category then [] else ["category"])

/-- Outcome of the image-handling chain of the create handler: Admin-SDK
storage upload, the sharp/base64 fallback, or a compression failure (which
the handler turns into a 400). -/
inductive ImageOutcome where
  | storageUrl (url : String) : ImageOutcome
  | base64Url (url : String) : ImageOutcome
  | compressionFailed : ImageOutcome
deriving Repr, DecidableEq

/-- The message refinement of the create handler's catch block. -/
def createErrorMessage (msg : String) : String :=
  if jsIncludes msg "Permission denied" || jsIncludes msg "403" then
    "Permission denied. Please check your Firestore security rules."
  else if jsIncludes msg "401" || jsIncludes msg "Unauthorized" then
    "Authentication failed. Please try logging in again."
  else "Failed to create product"

/-- `POST /api/products` (`router.post` in `backend/routes/products.js`).
`hasImage` is whether a file was uploaded, `image` the outcome of the
storage/compression chain, `dbOutcome` the outcome of the Admin-SDK write
with REST fallback (`ok docId` when either path stored the document, `error`
when both threw).  Returns the response and the document appended to the
store on success. -/
def postProduct (b : CreateBody) (hasImage : Bool) (image : ImageOutcome)
    (uid : String) (now : Int) (dbOutcome : Except String String) :
    RouteResponse Product :=
  let missing := createMissingFields b
  if missing ≠ [] then
    routeError ("Missing required fields: " ++ String.intercalate ", " missing) 400
  else
    let priceNum := parseFloatJS (b.price.getD "")
    if jsFloatNotPositive priceNum then
      routeError "Price must be a positive number" 400
    else
      match parseIntJS (b.count.getD "") with
      | none => routeError "Count must be a non-negative integer" 400
      | some countNum =>
        if countNum < 0 then
          routeError "Count must be a non-negative integer" 400
        else if hasImage then
          match image with
          | .compressionFailed =>
            routeError ("Image is too large. Please install Firebase Storage credentials "
              ++ "or reduce the image size. Alternatively, install \"sharp\" package for "
              ++ "image compression: npm install sharp") 400
          | .storageUrl url | .base64Url url =>
            match dbOutcome with
            | .ok docId =>
              routeSuccess
                { id := docId
                  name := jsTrim (b.name.getD "")
                  description := jsTrim (b.description.getD "")
                  price := priceNum
                  count := countNum
                  category := jsTrim (b.category.getD "")
                  imageUrl := some url
                  status := if truthyStr b.status then b.status.getD "" else "active"
                  popular := some false
                  createdAt := some now
                  createdBy := uid
                  updatedAt := none }
                "Product created successfully" 201
            | .error msg => routeError (createErrorMessage msg) 500
        else
          routeError "Product image is required" 400

/-- The JSON body of `PUT /api/products/:id`; every field is optional, and
`popular` may be any JSON value. -/
structure UpdateBody where
  name : Option String
  description : Option String
  price : Option BodyNum
  count : Option BodyNum
  category : Option String
  status : Option String
  popular : Option JSValue

/-- The coercion `popular === true || popular === 'true'` used by the
update and toggle handlers. -/
def popularTruthy : JSValue → Bool
  | .vBool b => b
  | .vStr s => s == "true"
  | _ => false

/-- Application of the `updates` object built by `PUT /api/products/:id` to
a stored document (`doc.update(updates)` merges field by field). -/
def applyUpdates (b : UpdateBody) (priceNum : Option JSFloat)
    (countNum : Option Int) (now : Int) (p : Product) : Product :=
  { p with
    name := match b.name with | some s => jsTrim s | none => p.name
    description := match b.description with | some s => jsTrim s | none => p.description
    price := priceNum.getD p.price
    count := countNum.getD p.count
    category := match b.category with | some s => jsTrim s | none => p.category
    status := b.status.getD p.status
    popular := match b.popular with | some v => some (popularTruthy v) | none => p.popular
    updatedAt := some now }

/-- `PUT /api/products/:id` (`router.put` in `backend/routes/products.js`):
validates the optional `price` and `count` fields, 404s when the document
does not exist, and otherwise merges exactly the fields present in the body,
plus a fresh `updatedAt`, into the stored document.  Returns the response
and the new store.  The `price` clause of its update object: absent, or
`parseFloat`-parsed and rejected when not positive. -/
def priceCheckOf (b : UpdateBody) : Except Unit (Option JSFloat) :=
  match b.price with
  | none => .ok none
  | some v =>
    let q := parseFloatOf v
    if jsFloatNotPositive q then .error () else .ok (some q)

/-- The `count` clause of the update object of `PUT /api/products/:id`:
absent, or `parseInt`-parsed and rejected when `NaN` or negative. -/
def countCheckOf (b : UpdateBody) : Except Unit (Option Int) :=
  match b.count with
  | none => .ok none
  | some v =>
    match parseIntOf v with
    | none => .error ()
    | some n => if n < 0 then .error () else .ok (some n)

/-- `PUT /api/products/:id` continued: validation, 404 on a missing
document, then the merge and write-back. -/
def putProduct (id : String) (b : UpdateBody) (store : List Product)
    (now : Int) : RouteResponse Product × List Product :=
  match priceCheckOf b with
  | .error _ => (routeError "Price must be a positive number" 400, store)
  | .ok priceNum =>
    match countCheckOf b with
    | .error _ => (routeError "Count must be a non-negative integer" 400, store)
    | .ok countNum =>
      match store.find? (fun p => p.id == id) with
      | none => (routeError "Product not found" 404, store)
      | some p =>
        let p' := applyUpdates b priceNum countNum now p
        (routeSuccess p' "Product updated successfully" 200,
         store.map (fun q => if q.id == id then p' else q))

/-- `PATCH /api/products/:id/popular` (`router.patch` in
`backend/routes/products.js`).  Both the Admin-SDK path and the REST
fallback perform the same logic: 404 when the product does not exist; when
making a product popular, reject with 400 if at least 4 other products
already have `popular == true`; otherwise set the flag and `updatedAt`. -/
def togglePopular (id : String) (popularBody : Option JSValue)
    (store : List Product) (now : Int) : RouteResponse Product × List Product :=
  let makePopular := match popularBody with
    | some v => popularTruthy v
    | none => false
  match store.find? (fun p => p.id == id) with
  | none => (routeError "Product not found" 404, store)
  | some p =>
    if makePopular
        && 4 ≤ (store.filter (fun d => d.popular == some true && d.id != id)).length then
      (routeError ("Maximum of 4 products can be popular at a time. "
        ++ "Please remove a popular product first.") 400, store)
    else
      let p' := { p with popular := some makePopular, updatedAt := some now }
      (routeSuccess p'
        (if makePopular then "Product marked as popular" else "Product removed from popular")
        200,
       store.map (fun q => if q.id == id then p' else q))

/-- A stored order document, with the fields the statistics and delete
handlers read.  The three total fields may each be absent; values are the
numbers stored in Firestore. -/
structure Order where
  id : String
  status : Option String
  totalAmount : Option ℚ
  total : Option ℚ
  amount : Option ℚ
deriving Repr, DecidableEq

/-- JavaScript `a || b` for an optional numeric field: an absent field and
`0` are falsy. -/
def orTotal (v : Option ℚ) (els : ℚ) : ℚ :=
  match v with
  | some q => if q = 0 then els else q
  | none => els

/-- `parseFloat(order.totalAmount || order.total || order.amount || 0)` from
the stats loop (`parseFloat` of a number is the number itself). -/
def orderTotalRaw (o : Order) : ℚ :=
  orTotal o.totalAmount (orTotal o.total (orTotal o.amount 0))

/-- `(order.status || '').toLowerCase()`. -/
def statusLower (o : Order) : String := (o.status.getD "").toLower

/-- Statuses counted as pending by the stats loop (`pending`, plus
`shipped`/`processing` which it counts as pending "for now"). -/
def isPendingStatus (s : String) : Bool :=
  s == "pending" || s == "shipped" || s == "processing"

/-- Statuses counted as completed by the stats loop. -/
def isCompletedStatus (s : String) : Bool :=
  s == "delivered" || s == "completed" || s == "paid"

/-- The accumulator of the `orders.forEach` loop of `GET /api/orders/stats`
(`totalOrders` is set to `orders.length` outside the loop). -/
structure OrderStatsRaw where
  totalOrders : Nat
  pendingOrders : Nat
  completedOrders : Nat
  revenue : ℚ
  totalCost : ℚ
deriving Repr, DecidableEq

/-- One iteration of the stats loop: add the order's total to `totalCost`,
then bump `pendingOrders` for `pending`, bump `completedOrders` and
`revenue` for `delivered`/`completed`/`paid`, and bump `pendingOrders` for
`shipped`/`processing`. -/
def statsStep (st : OrderStatsRaw) (o : Order) : OrderStatsRaw :=
  let s := statusLower o
  let t := orderTotalRaw o
  let st1 := { st with totalCost := st.totalCost + t }
  if s == "pending" then
    { st1 with pendingOrders := st1.pendingOrders + 1 }
  else if s == "delivered" || s == "completed" || s == "paid" then
    { st1 with completedOrders := st1.completedOrders + 1, revenue := st1.revenue + t }
  else if s == "shipped" || s == "processing" then
    { st1 with pendingOrders := st1.pendingOrders + 1 }
  else st1

/-- The raw (unrounded) statistics of `GET /api/orders/stats`. -/
def ordersStatsRaw (orders : List Order) : OrderStatsRaw :=
  orders.foldl statsStep ⟨orders.length, 0, 0, 0, 0⟩

/-- `Math.round(x * 100) / 100` (JavaScript `Math.round` is
`⌊x + 1/2⌋`). -/
def roundTo2 (q : ℚ) : ℚ := (⌊q * 100 + 1 / 2⌋ : ℚ) / 100

/-- The statistics object sent by `GET /api/orders/stats`: the raw counters
with `revenue` and `totalCost` rounded to 2 decimal places. -/
def ordersStatsResponse (orders : List Order) : OrderStatsRaw :=
  let raw := ordersStatsRaw orders
  { raw with revenue := roundTo2 raw.revenue, totalCost := roundTo2 raw.totalCost }

/-- `GET /api/orders/stats` on a readable orders collection. -/
def getOrderStats (orders : List Order) : RouteResponse OrderStatsRaw :=
  routeSuccess (ordersStatsResponse orders)
    "Order statistics retrieved successfully" 200

/-- `DELETE /api/orders/:id` (`router.delete` in `backend/routes/orders.js`):
404 when the order does not exist, otherwise delete the document with that
id (both the Admin-SDK path and the REST fallback).  Returns the response
(`data: null` on success) and the new store. -/
def deleteOrder (id : String) (store : List Order) :
    RouteResponse JSValue × List Order :=
  match store.find? (fun o => o.id == id) with
  | none => (routeError "Order not found" 404, store)
  | some _ =>
    (routeSuccess .vNull "Order deleted successfully" 200,
     store.filter (fun o => o.id != id))

theorem foldl_statsStep (l : List Order) (init : OrderStatsRaw) :
    l.foldl statsStep init =
      { totalOrders := init.totalOrders
        pendingOrders := init.pendingOrders
          + (l.filter (fun o => isPendingStatus (statusLower o))).length
        completedOrders := init.completedOrders
          + (l.filter (fun o => isCompletedStatus (statusLower o))).length
        revenue := init.revenue
          + ((l.filter (fun o => isCompletedStatus (statusLower o))).map orderTotalRaw).sum
        totalCost := init.totalCost + (l.map orderTotalRaw).sum } := by
  induction l generalizing init with
  | nil => simp
  | cons o rest ih =>
    rw [List.foldl_cons, ih]
    by_cases h1 : statusLower o = "pending"
    · simp [statsStep, isPendingStatus, isCompletedStatus, h1]
      constructor
      · omega
      · ring
    · by_cases h2 : statusLower o = "delivered" ∨ statusLower o = "completed"
          ∨ statusLower o = "paid"
      · rcases h2 with h2 | h2 | h2 <;>
          simp [statsStep, isPendingStatus, isCompletedStatus, h1, h2] <;>
          refine ⟨by omega, by ring, by ring⟩
      · push_neg at h2
        by_cases h3 : statusLower o = "shipped" ∨ statusLower o = "processing"
        · rcases h3 with h3 | h3 <;>
            simp [statsStep, isPendingStatus, isCompletedStatus, h1, h3,
              h2.1, h2.2.1, h2.2.2] <;>
            refine ⟨by omega, by ring⟩
        · push_neg at h3
          simp [statsStep, isPendingStatus, isCompletedStatus, h1,
            h2.1, h2.2.1, h2.2.2, h3.1, h3.2]
          ring

theorem filter_length_remove {α : Type} (l : List α) (q p : α → Bool) (a : α)
    (h : l.filter q = [a]) :
    (l.filter p).length
      = (((l.filter (fun x => !q x)).filter p).length + if p a then 1 else 0) := by
  induction l with
  | nil => simp at h
  | cons x rest ih =>
    by_cases hx : q x = true
    · rw [List.filter_cons_of_pos hx, List.cons.injEq] at h
      obtain ⟨rfl, hrest⟩ := h
      have hall : ∀ y ∈ rest, ¬ q y = true := by
        intro y hy
        exact List.filter_eq_nil_iff.mp hrest y hy
      have hid : rest.filter (fun x => !q x) = rest :=
        List.filter_eq_self.mpr (by intro y hy; simp [hall y hy])
      simp [List.filter_cons, hx, hid]
      by_cases hp : p x = true <;> simp [hp]
    · rw [List.filter_cons_of_neg hx] at h
      have hxq : (!q x) = true := by simp [hx]
      by_cases hp : p x = true <;>
        simp [List.filter_cons, hx, hxq, hp, ih h] <;> omega

theorem filter_sum_remove {α : Type} (l : List α) (q p : α → Bool) (f : α → ℚ)
    (a : α) (h : l.filter q = [a]) :
    ((l.filter p).map f).sum
      = (((l.filter (fun x => !q x)).filter p).map f).sum + (if p a then f a else 0) := by
  induction l with
  | nil => simp at h
  | cons x rest ih =>
    by_cases hx : q x = true
    · rw [List.filter_cons_of_pos hx, List.cons.injEq] at h
      obtain ⟨rfl, hrest⟩ := h
      have hall : ∀ y ∈ rest, ¬ q y = true := by
        intro y hy
        exact List.filter_eq_nil_iff.mp hrest y hy
      have hid : rest.filter (fun x => !q x) = rest :=
        List.filter_eq_self.mpr (by intro y hy; simp [hall y hy])
      simp [List.filter_cons, hx, hid]
      by_cases hp : p x = true <;> simp [hp] <;> ring
    · rw [List.filter_cons_of_neg hx] at h
      have hxq : (!q x) = true := by simp [hx]
      by_cases hp : p x = true <;>
        simp [List.filter_cons, hx, hxq, hp, ih h] <;> ring

theorem length_filter_two_disjoint {α : Type} (l : List α) (p r : α → Bool)
    (hd : ∀ x, ¬(p x = true ∧ r x = true)) :
    (l.filter p).length + (l.filter r).length ≤ l.length := by
  induction l with
  | nil => simp
  | cons x rest ih =>
    by_cases hp : p x = true
    · have hr : ¬ r x = true := fun hr => hd x ⟨hp, hr⟩
      simp [List.filter_cons, hp, hr]
      omega
    · by_cases hr : r x = true <;> simp [List.filter_cons, hp, hr] <;> omega

/-- The decoded JWT payload fields read by the fallback path of
`verifyToken` (`backend/middleware/auth.js`).  A field is `none` when the
JSON payload lacks it. -/
structure JwtPayload where
  sub : Option String
  email : Option String
  email_verified : Option Bool
  exp : Option ℚ
deriving Repr, DecidableEq

/-- The `req.user` object attached by `verifyToken`. -/
structure ReqUser where
  uid : String
  email : String
  emailVerified : Bool
deriving Repr, DecidableEq

/-- Outcome of `auth.verifyIdToken`: the Admin SDK may be unavailable (no
credentials), may reject, or may return a decoded token. -/
inductive AdminVerifyOutcome where
  | unavailable : AdminVerifyOutcome
  | throws (msg : String) : AdminVerifyOutcome
  | ok (uid email : String) (verified : Bool) : AdminVerifyOutcome
deriving Repr, DecidableEq

/-- Result of the middleware: an error response, or `next()` with
`req.user` attached. -/
inductive VerifyResult where
  | response (r : ApiResponse) : VerifyResult
  | authorized (user : ReqUser) : VerifyResult

/-- The truthiness check `payload.exp && payload.exp < Date.now() / 1000`:
an absent or zero `exp` is falsy and skips the expiry check entirely. -/
def expExpired (e : Option ℚ) (nowSec : ℚ) : Bool :=
  match e with
  | some v => decide (v ≠ 0) && decide (v < nowSec)
  | none => false

/-- The manual JWT-decode fallback of `verifyToken` (its inner try/catch):
split the token on dots, decode and validate the middle part, check the
(truthy) `exp` claim, and accept without any signature verification. -/
def jwtFallback (token : String) (decodePart : String → Option JwtPayload)
    (nowSec : ℚ) (dev : Bool) : VerifyResult :=
  let jwtParts := jsSplit token "."
  if jwtParts.length ≠ 3 then
    .response (sendError "Invalid token" 401 dev none)
  else
    match decodePart (jwtParts.getD 1 "") with
    | none => .response (sendError "Invalid token" 401 dev none)
    | some payload =>
      if ¬ truthyStr payload.sub || ¬ truthyStr payload.email then
        .response (sendError "Invalid token" 401 dev none)
      else if expExpired payload.exp nowSec then
        .response (sendError "Token expired" 401 dev none)
      else
        .authorized
          ⟨payload.sub.getD "", payload.email.getD "",
            payload.email_verified.getD false⟩

/-- `verifyToken` from `backend/middleware/auth.js`.  `decodePart` models
`JSON.parse(Buffer.from(part, 'base64').toString())` on the middle JWT part
(`none` when parsing throws, or when the payload is not an object);
`nowSec` is `Date.now() / 1000`. -/
def verifyToken (authHeader : Option String) (admin : AdminVerifyOutcome)
    (decodePart : String → Option JwtPayload) (nowSec : ℚ) (dev : Bool) :
    VerifyResult :=
  match authHeader with
  | none => .response (sendError "No token provided" 401 dev none)
  | some h =>
    if ¬ jsStartsWith h "Bearer " then
      .response (sendError "No token provided" 401 dev none)
    else
      let token := (jsSplit h "Bearer ").getD 1 ""
      if token == "" then
        .response (sendError "Invalid token format" 401 dev none)
      else
        match admin with
        | .ok uid email verified => .authorized ⟨uid, email, verified⟩
        | _ => jwtFallback token decodePart nowSec dev

/-- The JSON body of `POST /api/auth/register`. -/
structure RegisterBody where
  name : Option String
  email : Option String
  password : Option String
  confirmPassword : Option String
deriving Repr, DecidableEq

/-- `validateRequiredFields(req.body, ['name','email','password',
'confirmPassword'])` for the register handler. -/
def registerMissingFields (b : RegisterBody) : List String :=
  (if fieldPresent b.name then [] else ["name"])
    ++ (if fieldPresent b.email then [] else ["email"])
    ++ (if fieldPresent b.password then [] else ["password"])
    ++ (if fieldPresent b.confirmPassword then [] else ["confirmPassword"])

/-- A character allowed inside the pieces of the registration email regex
(`[^\s@]`): anything that is not whitespace and not `@`. -/
def isEmailChar (c : Char) : Bool := !(isJsSpace c) && c != '@'

/-- The test `/^[^\s@]+@[^\s@]+\.[^\s@]+$/.test(email)` of the register
handler: some position `i` holds `@` with a nonempty run of email characters
before it, some later position `j` holds `.` with nonempty runs of email
characters between and after. -/
def emailRegexTest (s : String) : Bool :=
  let cs := s.data
  let n := cs.length
  (List.range n).any fun i =>
    (List.range n).any fun j =>
      decide (1 ≤ i) && decide (i + 2 ≤ j) && decide (j + 2 ≤ n)
        && (cs.getD i ' ' == '@') && (cs.getD j ' ' == '.')
        && (cs.take i).all isEmailChar
        && ((cs.drop (i + 1)).take (j - i - 1)).all isEmailChar
        && (cs.drop (j + 1)).all isEmailChar

/-- Outcome of the Firebase Auth `accounts:signUp` REST call made by the
register handler: the fetch may throw, return a non-ok / error payload,
return data missing `localId`/`idToken`, or succeed (creating the Firebase
Auth record for the email). -/
inductive SignUpOutcome where
  | netError (msg : String) : SignUpOutcome
  | apiError (status : Nat) (errMsg : Option String) : SignUpOutcome
  | missingData : SignUpOutcome
  | ok (localId email idToken refreshToken : String) : SignUpOutcome
deriving Repr, DecidableEq

/-- The admin profile document written by the register handler. -/
structure AdminDoc where
  name : String
  email : String
  uid : String
  createdAt : Int
  status : String
deriving Repr, DecidableEq

/-- `db.collection('admin').doc(k).set(d)`: overwrite the document with key
`k`, creating it when absent. -/
def storeSet (l : List (String × AdminDoc)) (k : String) (d : AdminDoc) :
    List (String × AdminDoc) :=
  if l.any (fun e => e.1 == k) then
    l.map (fun e => if e.1 == k then (k, d) else e)
  else l ++ [(k, d)]

/-- The success payload of the register handler. -/
structure RegisterData where
  uid : String
  email : String
  name : String
  token : String
  refreshToken : String
deriving Repr, DecidableEq

/-- The error-code mapping of the register handler for a Firebase error
payload. -/
def registerApiErrorResponse {α : Type} (status : Nat) (errMsg : Option String) :
    RouteResponse α :=
  match errMsg with
  | some m =>
    if m == "EMAIL_EXISTS" then routeError "Email already registered" 409
    else if m == "INVALID_EMAIL" then routeError "Invalid email address" 400
    else if m == "WEAK_PASSWORD" then
      routeError "Password is too weak. Please use at least 6 characters." 400
    else if jsIncludes m "API key" || jsIncludes m "API_KEY" then
      routeError "Authentication service configuration error. Please check Firebase API key." 500
    else routeError m 400
  | none =>
    routeError ("Registration failed with status " ++ toString status)
      (if status = 0 then 500 else status)

/-- The catch-all error message of the register handler. -/
def registerCatchMessage (msg : String) : String :=
  if jsIncludes msg "fetch" || jsIncludes msg "ENOTFOUND" || jsIncludes msg "ECONNREFUSED" then
    "Cannot connect to authentication service. Please check your connection."
  else "Registration failed. Please try again."

/-- `POST /api/auth/register` (`router.post('/register')` in the auth
routes).  `dbAvailable` is whether the Admin-SDK Firestore handle exists;
`dbWriteOk` is whether the `admin` document write succeeds (on failure the
handler logs and continues).  Returns the response and the new `admin`
collection. -/
def register (b : RegisterBody) (signUp : SignUpOutcome) (dbAvailable : Bool)
    (dbWriteOk : Bool) (now : Int) (dev : Bool)
    (adminStore : List (String × AdminDoc)) :
    RouteResponse RegisterData × List (String × AdminDoc) :=
  let missing := registerMissingFields b
  if missing ≠ [] then
    (routeError ("Missing required fields: " ++ String.intercalate ", " missing) 400,
     adminStore)
  else if b.password ≠ b.confirmPassword then
    (routeError "Passwords do not match" 400, adminStore)
  else if (b.password.getD "").length < 6 then
    (routeError "Password must be at least 6 characters" 400, adminStore)
  else if ¬ emailRegexTest (b.email.getD "") then
    (routeError "Invalid email format" 400, adminStore)
  else
    match signUp with
    | .netError msg =>
      (routeErrorDev (registerCatchMessage msg) 500 dev (some msg), adminStore)
    | .apiError status errMsg => (registerApiErrorResponse status errMsg, adminStore)
    | .missingData =>
      (routeError "Invalid response from authentication service" 500, adminStore)
    | .ok localId email idToken refreshToken =>
      let adminStore' :=
        if dbAvailable && dbWriteOk then
          storeSet adminStore localId
            { name := jsTrim (b.name.getD "")
              email := jsTrim (b.email.getD "")
              uid := localId
              createdAt := now
              status := "active" }
        else adminStore
      (routeSuccess
        { uid := localId
          email := email
          name := jsTrim (b.name.getD "")
          token := idToken
          refreshToken := refreshToken }
        "Registration successful" 201,
       adminStore')

/-- The Firestore accesses a dual-path handler can perform, in order. -/
inductive FirestoreCall where
  | adminGet : FirestoreCall
  | adminUpdate : FirestoreCall
  | restGet : FirestoreCall
  | restPatch : FirestoreCall
deriving Repr, DecidableEq

/-- Insertion step of the REST path's JavaScript sort by `createdAt`
descending (a missing `createdAt` sorts as epoch 0); equal keys keep their
original order, matching the stable `Array.prototype.sort`. -/
def insertByCreatedDesc (p : Product) : List Product → List Product
  | [] => [p]
  | q :: rest =>
    if (q.createdAt.getD 0) < (p.createdAt.getD 0) then p :: q :: rest
    else q :: insertByCreatedDesc p rest

/-- The REST path's `products.sort((a, b) => bDate - aDate)`. -/
def sortByCreatedDesc (l : List Product) : List Product :=
  l.foldl (fun acc p => insertByCreatedDesc p acc) []

/-- `GET /api/products` (`router.get('/')` in `backend/routes/products.js`):
try the Admin SDK when available, fall back to the REST API when it throws,
and 500 with the route's generic message (error attached only in
development) when the used path fails.  Also returns the list of Firestore
accesses performed. -/
def getProductsHandler (dbAvailable : Bool)
    (adminOutcome : Except String (List Product))
    (restOutcome : Except String (List Product)) (dev : Bool) :
    RouteResponse (List Product) × List FirestoreCall :=
  if dbAvailable then
    match adminOutcome with
    | .ok products =>
      (routeSuccess products "Products retrieved successfully" 200, [.adminGet])
    | .error _ =>
      match restOutcome with
      | .ok products =>
        (routeSuccess (sortByCreatedDesc products) "Products retrieved successfully" 200,
         [.adminGet, .restGet])
      | .error msg =>
        (routeErrorDev "Failed to retrieve products" 500 dev (some msg),
         [.adminGet, .restGet])
  else
    match restOutcome with
    | .ok products =>
      (routeSuccess (sortByCreatedDesc products) "Products retrieved successfully" 200,
       [.restGet])
    | .error msg =>
      (routeErrorDev "Failed to retrieve products" 500 dev (some msg), [.restGet])

/-- The valid statuses of `PATCH /api/orders/:id/status`. -/
def validOrderStatuses : List String :=
  ["pending", "processing", "shipped", "delivered", "completed", "cancelled",
   "paid", "rejected"]

/-- `PATCH /api/orders/:id/status` (`router.patch('/:id/status')` in
`backend/routes/orders.js`).  `adminOutcome` is the Admin-SDK get-and-update
(`ok none` when the document is missing, `error` when the SDK throws);
`restGetOutcome` and `restPatchOutcome` are the REST fallback's existence
check and PATCH.  Returns the response (whose payload is the new status and
notes) and the Firestore accesses performed. -/
def patchOrderStatus (statusBody : Option String) (notes : Option String)
    (dbAvailable : Bool) (adminOutcome : Except String (Option Order))
    (restGetOutcome : Except String (Option Order))
    (restPatchOutcome : Except String Unit) (dev : Bool) :
    RouteResponse (String × Option String) × List FirestoreCall :=
  if ¬ truthyStr statusBody then (routeError "Status is required" 400, [])
  else
    let status := statusBody.getD ""
    if ¬ validOrderStatuses.contains status.toLower then
      (routeError ("Invalid status. Must be one of: "
        ++ String.intercalate ", " validOrderStatuses) 400, [])
    else
      let okResp :=
        routeSuccess (status.toLower, notes) "Order status updated successfully" 200
      let restPath (pre : List FirestoreCall) :
          RouteResponse (String × Option String) × List FirestoreCall :=
        match restGetOutcome with
        | .error msg =>
          (routeErrorDev "Failed to update order status" 500 dev (some msg),
           pre ++ [.restGet])
        | .ok none => (routeError "Order not found" 404, pre ++ [.restGet])
        | .ok (some _) =>
          match restPatchOutcome with
          | .error msg =>
            (routeErrorDev "Failed to update order status" 500 dev (some msg),
             pre ++ [.restGet, .restPatch])
          | .ok _ => (okResp, pre ++ [.restGet, .restPatch])
      if dbAvailable then
        match adminOutcome with
        | .ok none => (routeError "Order not found" 404, [.adminUpdate])
        | .ok (some _) => (okResp, [.adminUpdate])
        | .error _ => restPath [.adminUpdate]
      else restPath []

theorem find?_update_store (store : List Product) (id : String) (p p' : Product)
    (hfind : store.find? (fun q => q.id == id) = some p) (hid : p'.id = p.id) :
    (store.map (fun q => if q.id == id then p' else q)).find? (fun q => q.id == id)
      = some p' := by
  induction store with
  | nil => simp at hfind
  | cons x rest ih =>
    rw [List.map_cons]
    by_cases hx : (x.id == id) = true
    · simp only [List.find?_cons, hx, cond_true] at hfind
      obtain rfl : x = p := by injection hfind
      have hp' : (p'.id == id) = true := by rw [hid]; exact hx
      rw [if_pos hx]
      simp only [List.find?_cons, hp', cond_true]
    · simp only [List.find?_cons, hx, cond_false] at hfind
      rw [if_neg hx]
      simp only [List.find?_cons, hx, cond_false]
      exact ih hfind

theorem filter_head_find? {α : Type} (l : List α) (q : α → Bool) (a : α)
    (rest : List α) (h : l.filter q = a :: rest) : l.find? q = some a := by
  induction l with
  | nil => simp at h
  | cons x xs ih =>
    by_cases hx : q x = true
    · rw [List.filter_cons_of_pos hx, List.cons.injEq] at h
      obtain ⟨rfl, -⟩ := h
      simp [List.find?_cons, hx]
    · rw [List.filter_cons_of_neg hx] at h
      simp [List.find?_cons, hx]
      exact ih h

/-- C1: a `PATCH /api/products/:id/popular` requesting `popular = true` on
an existing product is rejected with HTTP 400 and leaves the store (and so
the product's popular flag) unchanged when at least four other products
already have `popular == true`; when fewer than four others are popular, the
stored product's popular flag is set to `true`. -/
theorem C1_popular_cap (id : String) (store : List Product) (now : Int)
    (p : Product) (hfind : store.find? (fun q => q.id == id) = some p) :
    (4 ≤ (store.filter (fun d => d.popular == some true && d.id != id)).length →
      (togglePopular id (some (.vBool true)) store now).1.status = 400
        ∧ (togglePopular id (some (.vBool true)) store now).2 = store)
    ∧ ((store.filter (fun d => d.popular == some true && d.id != id)).length < 4 →
      (togglePopular id (some (.vBool true)) store now).1.status = 200
        ∧ ((togglePopular id (some (.vBool true)) store now).2.find?
            (fun q => q.id == id))
          = some { p with popular := some true, updatedAt := some now }) := by
  constructor
  · intro hge
    simp [togglePopular, hfind, popularTruthy, hge, routeError]
  · intro hlt
    have hnot : ¬ (4 ≤ (store.filter
        (fun d => d.popular == some true && d.id != id)).length) := by omega
    constructor
    · simp [togglePopular, hfind, popularTruthy, hnot, routeSuccess]
    · simp only [togglePopular, hfind, popularTruthy, Bool.true_and]
      rw [if_neg (by simpa using hnot)]
      exact find?_update_store store id p _ hfind rfl

/-- A minimal concrete product for instantiations. -/
def mkProd (id : String) (pop : Option Bool) : Product :=
  { id := id, name := "n", description := "d", price := .nan, count := 0,
    category := "c", imageUrl := none, status := "active", popular := pop,
    createdAt := none, createdBy := "u", updatedAt := none }

/-- A store with four popular products and a fifth non-popular one. -/
def C1store : List Product :=
  [mkProd "p1" (some true), mkProd "p2" (some true), mkProd "p3" (some true),
   mkProd "p4" (some true), mkProd "p5" (some false)]

/-- Witness for C1: making a fifth product popular while four others are
popular yields 400 and leaves the store unchanged. -/
theorem C1_popular_cap_witness :
    (togglePopular "p5" (some (.vBool true)) C1store 100).1.status = 400
    ∧ (togglePopular "p5" (some (.vBool true)) C1store 100).2 = C1store :=
  (C1_popular_cap "p5" C1store 100 (mkProd "p5" (some false)) (by decide)).1
    (by decide)

/-- C4 (amended): a `PUT /api/products/:id` on an existing product that
succeeds merges exactly the body's fields into the stored document: each of
the seven updatable fields keeps its stored value when absent from the body
and takes the body's (trimmed/parsed) value when present, and `id`,
`imageUrl`, `createdAt` and `createdBy` are never touched — but `updatedAt`
is always overwritten with the request time, although it is not part of the
request body. -/
theorem C4_put_frame (id : String) (b : UpdateBody) (store : List Product)
    (now : Int) (p : Product)
    (hfind : store.find? (fun q => q.id == id) = some p)
    (h200 : (putProduct id b store now).1.status = 200) :
    ∃ p', (putProduct id b store now).1.body = some p'
      ∧ (putProduct id b store now).2
          = store.map (fun q => if q.id == id then p' else q)
      ∧ (b.name = none → p'.name = p.name)
      ∧ (∀ s, b.name = some s → p'.name = jsTrim s)
      ∧ (b.description = none → p'.description = p.description)
      ∧ (b.price = none → p'.price = p.price)
      ∧ (b.count = none → p'.count = p.count)
      ∧ (b.category = none → p'.category = p.category)
      ∧ (b.status = none → p'.status = p.status)
      ∧ (∀ s, b.status = some s → p'.status = s)
      ∧ (b.popular = none → p'.popular = p.popular)
      ∧ p'.id = p.id ∧ p'.imageUrl = p.imageUrl ∧ p'.createdAt = p.createdAt
      ∧ p'.createdBy = p.createdBy ∧ p'.updatedAt = some now := by
  rcases hpc : priceCheckOf b with _ | priceNum
  · simp [putProduct, hpc, routeError] at h200
  rcases hcc : countCheckOf b with _ | countNum
  · simp [putProduct, hpc, hcc, routeError] at h200
  refine ⟨applyUpdates b priceNum countNum now p, ?_, ?_, ?_, ?_, ?_, ?_, ?_,
    ?_, ?_, ?_, ?_, ?_, ?_, ?_, ?_, ?_⟩
  · simp [putProduct, hpc, hcc, hfind, routeSuccess]
  · simp [putProduct, hpc, hcc, hfind, routeSuccess]
  · intro hn; simp [applyUpdates, hn]
  · intro s hn; simp [applyUpdates, hn]
  · intro hn; simp [applyUpdates, hn]
  · intro hn
    simp only [priceCheckOf, hn] at hpc
    obtain rfl : (none : Option JSFloat) = priceNum := by injection hpc
    simp [applyUpdates]
  · intro hn
    simp only [countCheckOf, hn] at hcc
    obtain rfl : (none : Option Int) = countNum := by injection hcc
    simp [applyUpdates]
  · intro hn; simp [applyUpdates, hn]
  · intro hn; simp [applyUpdates, hn]
  · intro s hn; simp [applyUpdates, hn]
  · intro hn; simp [applyUpdates, hn]
  · simp [applyUpdates]
  · simp [applyUpdates]
  · simp [applyUpdates]
  · simp [applyUpdates]
  · simp [applyUpdates]

/-- A stored product whose `updatedAt` is 5. -/
def C4prod : Product :=
  { id := "a", name := "n", description := "d", price := .nan, count := 1,
    category := "c", imageUrl := some "img", status := "active",
    popular := some false, createdAt := some 3, createdBy := "u",
    updatedAt := some 5 }

/-- A PUT body with no fields at all. -/
def C4emptyBody : UpdateBody := ⟨none, none, none, none, none, none, none⟩

/-- Counterexample to C4 as stated: a PUT whose body contains no field at
all still modifies the stored document — `updatedAt` is overwritten with the
request time, so a field absent from the request body does not keep its
previous stored value. -/
theorem C4_put_frame_counterexample :
    (putProduct "a" C4emptyBody [C4prod] 6).2
      = [{ C4prod with updatedAt := some 6 }]
    ∧ ({ C4prod with updatedAt := some 6 } : Product).updatedAt ≠ C4prod.updatedAt := by
  constructor
  · rfl
  · decide

/-- A PUT body carrying only a `name`. -/
def C4nameBody : UpdateBody := ⟨some " New ", none, none, none, none, none, none⟩

/-- Witness for C4 at a one-product store and a name-only body. -/
theorem C4_put_frame_witness :
    ∃ p', (putProduct "a" C4nameBody [C4prod] 6).1.body = some p'
      ∧ (putProduct "a" C4nameBody [C4prod] 6).2
          = [C4prod].map (fun q => if q.id == "a" then p' else q)
      ∧ (C4nameBody.name = none → p'.name = C4prod.name)
      ∧ (∀ s, C4nameBody.name = some s → p'.name = jsTrim s)
      ∧ (C4nameBody.description = none → p'.description = C4prod.description)
      ∧ (C4nameBody.price = none → p'.price = C4prod.price)
      ∧ (C4nameBody.count = none → p'.count = C4prod.count)
      ∧ (C4nameBody.category = none → p'.category = C4prod.category)
      ∧ (C4nameBody.status = none → p'.status = C4prod.status)
      ∧ (∀ s, C4nameBody.status = some s → p'.status = s)
      ∧ (C4nameBody.popular = none → p'.popular = C4prod.popular)
      ∧ p'.id = C4prod.id ∧ p'.imageUrl = C4prod.imageUrl
      ∧ p'.createdAt = C4prod.createdAt
      ∧ p'.createdBy = C4prod.createdBy ∧ p'.updatedAt = some 6 :=
  C4_put_frame "a" C4nameBody [C4prod] 6 C4prod (by rfl) (by rfl)

/-- C9 (amended): every product document returned by a successful
`POST /api/products` has `popular = false`, `createdBy` equal to the
authenticated uid, a creation timestamp, and `status` equal to the body's
`status` when that is truthy (present and nonempty) and `'active'`
otherwise; the request is answered 400 when `parseFloat(price)` is `NaN` or
not positive, when `parseInt(count)` is `NaN` or negative (a fractional
`count` string is truncated and accepted), or when no image file is
supplied. -/
theorem C9_create_product (b : CreateBody) (hasImage : Bool)
    (image : ImageOutcome) (uid : String) (now : Int)
    (dbOutcome : Except String String) :
    (∀ doc, (postProduct b hasImage image uid now dbOutcome).body = some doc →
      (postProduct b hasImage image uid now dbOutcome).status = 201
      ∧ doc.popular = some false ∧ doc.createdBy = uid ∧ doc.createdAt = some now
      ∧ doc.status = (if truthyStr b.status then b.status.getD "" else "active")
      ∧ doc.count = (parseIntJS (b.count.getD "")).getD 0
      ∧ 0 ≤ doc.count)
    ∧ (jsFloatNotPositive (parseFloatJS (b.price.getD "")) = true →
        (postProduct b hasImage image uid now dbOutcome).status = 400)
    ∧ ((∀ n, parseIntJS (b.count.getD "") = some n → n < 0) →
        (postProduct b hasImage image uid now dbOutcome).status = 400)
    ∧ (hasImage = false →
        (postProduct b hasImage image uid now dbOutcome).status = 400) := by
  refine ⟨?_, ?_, ?_, ?_⟩
  · intro doc hdoc
    unfold postProduct at hdoc ⊢
    repeat' split at hdoc
    all_goals try simp [routeError, routeSuccess,
      apply_ite (RouteResponse.body (α := Product)), ite_self] at hdoc
    all_goals obtain ⟨hm, hpp, rfl⟩ := hdoc
    all_goals try simp_all [routeSuccess, routeError]
    all_goals rw [if_neg (by omega)]
  · intro hjp
    unfold postProduct
    simp only [hjp]
    simp [routeError, apply_ite (RouteResponse.status (α := Product)), ite_self]
  · intro hc
    unfold postProduct
    rcases hcnt : parseIntJS (b.count.getD "") with _ | n
    · simp [hcnt, routeError, apply_ite (RouteResponse.status (α := Product)), ite_self]
    · have hn : n < 0 := hc n hcnt
      simp only [hcnt, if_pos hn]
      simp [routeError, apply_ite (RouteResponse.status (α := Product)), ite_self]
  · intro hni
    subst hni
    unfold postProduct
    rcases hcnt : parseIntJS (b.count.getD "") with _ | n
    · simp [hcnt, routeError, apply_ite (RouteResponse.status (α := Product)), ite_self]
    · simp [hcnt, routeError, apply_ite (RouteResponse.status (α := Product)), ite_self]

/-- A create body whose `count` is the fractional string `2.5` and whose
`status` is the present-but-empty string. -/
def C9body : CreateBody :=
  ⟨some "A", some "B", some "10", some "2.5", some "C", some ""⟩

/-- The response of `POST /api/products` on `C9body` with an uploaded
image. -/
def C9result : RouteResponse Product :=
  postProduct C9body true (.storageUrl "u") "admin1" 7 (.ok "d1")

/-- Counterexample to C9 as stated: a request whose `count` is `"2.5"` (not
a non-negative integer) and whose `status` field is present (the empty
string) is not rejected — it creates the product with the count truncated to
2 and with status `'active'` instead of the request's `status`. -/
theorem C9_create_product_counterexample :
    C9result.status = 201 ∧ C9result.success = true
    ∧ C9result.body.map Product.count = some 2
    ∧ C9result.body.map Product.status = some "active" := by
  have hnp : jsFloatNotPositive (parseFloatJS "10") = false := by
    rw [parseFloatJS, show parseFloatCore "10" = .fin false 10 0 0 0 from by decide]
    norm_num [jsFloatNotPositive, sciToRat]
  have hcnt : parseIntJS "2.5" = some 2 := by decide
  have hmiss :
      createMissingFields ⟨some "A", some "B", some "10", some "2.5", some "C", some ""⟩
        = [] := by decide
  unfold C9result C9body
  simp [postProduct, hmiss, hnp, hcnt, routeSuccess, truthyStr]

/-- Witness for C9: a POST with no image file is answered 400. -/
theorem C9_create_product_witness :
    (postProduct C9body false .compressionFailed "u" 0 (.ok "d")).status = 400 :=
  (C9_create_product C9body false .compressionFailed "u" 0 (.ok "d")).2.2.2 rfl

/-- C2 (amended): decoding after encoding is the identity on objects whose
values are strings, integers, doubles, booleans, Date timestamps, null,
nested maps of such values, and arrays whose elements are strings, integers,
doubles or booleans.  (Arrays containing null, timestamps, maps or arrays do
not roundtrip: the decoder returns those elements as raw wire objects.) -/
theorem C2_roundtrip_good (m : List (String × JSValue))
    (h : goodFields m = true) :
    convertFirestoreFields (convertToFirestoreFields m) = m :=
  decode_encode_fields m h

/-- Counterexample to C2 as stated: the object `{a: [null]}` (an array of a
permitted value) does not decode back to itself — the decoder leaves the
array element as the raw wire object `{nullValue: null}`. -/
theorem C2_roundtrip_counterexample :
    convertFirestoreFields (convertToFirestoreFields [("a", .vArr [.vNull])])
      = [("a", .vArr [.vMap [("nullValue", .vNull)]])]
    ∧ [("a", JSValue.vArr [.vMap [("nullValue", .vNull)]])]
        ≠ [("a", JSValue.vArr [.vNull])] := by
  refine ⟨rfl, ?_⟩
  intro hcontra
  simp at hcontra

/-- Witness for C2 on a concrete well-behaved object. -/
theorem C2_roundtrip_good_witness :
    convertFirestoreFields (convertToFirestoreFields
        [("s", .vStr "x"), ("n", .vInt 3), ("b", .vBool true), ("z", .vNull),
         ("t", .vDate "2024-01-01T00:00:00.000Z"),
         ("arr", .vArr [.vInt 1, .vStr "y"]),
         ("m", .vMap [("inner", .vInt 2)])])
      = [("s", .vStr "x"), ("n", .vInt 3), ("b", .vBool true), ("z", .vNull),
         ("t", .vDate "2024-01-01T00:00:00.000Z"),
         ("arr", .vArr [.vInt 1, .vStr "y"]),
         ("m", .vMap [("inner", .vInt 2)])] :=
  C2_roundtrip_good _ (by rfl)

/-- C6 (amended): every `sendSuccess` response body has exactly the keys
`success`, `message` and `data`, with `success: true`; every `sendError`
body has `success: false` and `message` but never a `data` key (an `error`
key is added only in development mode). -/
theorem C6_response_shape :
    (∀ (d : JSValue) (msg : String) (code : Nat),
      (sendSuccess d msg code).bodyKeys = ["success", "message", "data"]
      ∧ (sendSuccess d msg code).success = true
      ∧ (sendSuccess d msg code).message = msg
      ∧ (sendSuccess d msg code).status = code)
    ∧ (∀ (msg : String) (code : Nat) (dev : Bool) (err : Option String),
      (sendError msg code dev err).success = false
      ∧ (sendError msg code dev err).message = msg
      ∧ (sendError msg code dev err).status = code
      ∧ "success" ∈ (sendError msg code dev err).bodyKeys
      ∧ "message" ∈ (sendError msg code dev err).bodyKeys
      ∧ "data" ∉ (sendError msg code dev err).bodyKeys) := by
  constructor
  · intro d msg code
    simp [sendSuccess, ApiResponse.bodyKeys]
  · intro msg code dev err
    cases dev <;> cases err <;> simp [sendError, ApiResponse.bodyKeys]

/-- Counterexample to C6 as stated: the 401 produced by `verifyToken` for a
request without an authorization header — an actual response of every
protected endpoint — contains no `data` field. -/
theorem C6_counterexample :
    verifyToken none .unavailable (fun _ => none) 0 false
      = .response (sendError "No token provided" 401 false none)
    ∧ "data" ∉ (sendError "No token provided" 401 false none).bodyKeys := by
  constructor
  · rfl
  · decide

theorem filter_true_eq {α : Type} (l : List α) : l.filter (fun _ => true) = l :=
  List.filter_eq_self.mpr (by intro a _; rfl)

theorem order_count_remove (store : List Order) (id : String) (p : Order → Bool)
    (o : Order) (h : store.filter (fun x => x.id == id) = [o]) :
    (store.filter p).length
      = ((store.filter (fun x => x.id != id)).filter p).length
        + (if p o then 1 else 0) := by
  have hb : (fun x : Order => x.id != id) = (fun x : Order => !(x.id == id)) := rfl
  rw [hb]
  exact filter_length_remove store (fun x => x.id == id) p o h

theorem order_sum_remove (store : List Order) (id : String) (p : Order → Bool)
    (f : Order → ℚ) (o : Order)
    (h : store.filter (fun x => x.id == id) = [o]) :
    ((store.filter p).map f).sum
      = (((store.filter (fun x => x.id != id)).filter p).map f).sum
        + (if p o then f o else 0) := by
  have hb : (fun x : Order => x.id != id) = (fun x : Order => !(x.id == id)) := rfl
  rw [hb]
  exact filter_sum_remove store (fun x => x.id == id) p f o h

theorem order_length_remove (store : List Order) (id : String) (o : Order)
    (h : store.filter (fun x => x.id == id) = [o]) :
    (store.filter (fun x => x.id != id)).length + 1 = store.length := by
  have h2 := order_count_remove store id (fun _ => true) o h
  rw [filter_true_eq, filter_true_eq] at h2
  simp at h2
  omega

theorem order_sum_remove_all (store : List Order) (id : String) (f : Order → ℚ)
    (o : Order) (h : store.filter (fun x => x.id == id) = [o]) :
    ((store.filter (fun x => x.id != id)).map f).sum + f o
      = (store.map f).sum := by
  have h2 := order_sum_remove store id (fun _ => true) f o h
  rw [filter_true_eq, filter_true_eq] at h2
  simp at h2
  linarith

/-- C5: after a successful `DELETE /api/orders/:id` of an existing order
(the unique order with that id), the order no longer exists, and the
statistics of `GET /api/orders/stats` are computed over only the remaining
orders: `totalOrders`, `pendingOrders`, `completedOrders`, `revenue` and
`totalCost` each drop by exactly the deleted order's contribution. -/
theorem C5_delete_order_stats (id : String) (store : List Order) (o : Order)
    (h : store.filter (fun x => x.id == id) = [o]) :
    (deleteOrder id store).1.status = 200
    ∧ (deleteOrder id store).1.success = true
    ∧ (deleteOrder id store).2 = store.filter (fun x => x.id != id)
    ∧ (∀ x ∈ (deleteOrder id store).2, (x.id == id) = false)
    ∧ (ordersStatsRaw (deleteOrder id store).2).totalOrders + 1
        = (ordersStatsRaw store).totalOrders
    ∧ (ordersStatsRaw (deleteOrder id store).2).pendingOrders
        + (if isPendingStatus (statusLower o) then 1 else 0)
        = (ordersStatsRaw store).pendingOrders
    ∧ (ordersStatsRaw (deleteOrder id store).2).completedOrders
        + (if isCompletedStatus (statusLower o) then 1 else 0)
        = (ordersStatsRaw store).completedOrders
    ∧ (ordersStatsRaw (deleteOrder id store).2).revenue
        + (if isCompletedStatus (statusLower o) then orderTotalRaw o else 0)
        = (ordersStatsRaw store).revenue
    ∧ (ordersStatsRaw (deleteOrder id store).2).totalCost + orderTotalRaw o
        = (ordersStatsRaw store).totalCost
    ∧ getOrderStats (deleteOrder id store).2
        = routeSuccess (ordersStatsResponse (deleteOrder id store).2)
            "Order statistics retrieved successfully" 200 := by
  have hf : store.find? (fun x => x.id == id) = some o :=
    filter_head_find? store _ o [] h
  have hdel : (deleteOrder id store).2 = store.filter (fun x => x.id != id) := by
    simp [deleteOrder, hf]
  refine ⟨by simp [deleteOrder, hf, routeSuccess],
    by simp [deleteOrder, hf, routeSuccess], hdel, ?_, ?_, ?_, ?_, ?_, ?_, by rfl⟩
  · intro x hx
    rw [hdel] at hx
    have := List.mem_filter.mp hx
    simpa using this.2
  · rw [hdel]
    simp only [ordersStatsRaw, foldl_statsStep]
    exact order_length_remove store id o h
  · rw [hdel]
    simp only [ordersStatsRaw, foldl_statsStep, Nat.zero_add]
    rw [order_count_remove store id (fun x => isPendingStatus (statusLower x)) o h]
  · rw [hdel]
    simp only [ordersStatsRaw, foldl_statsStep, Nat.zero_add]
    rw [order_count_remove store id (fun x => isCompletedStatus (statusLower x)) o h]
  · rw [hdel]
    simp only [ordersStatsRaw, foldl_statsStep, zero_add]
    rw [order_sum_remove store id (fun x => isCompletedStatus (statusLower x))
      orderTotalRaw o h]
  · rw [hdel]
    simp only [ordersStatsRaw, foldl_statsStep, zero_add]
    rw [order_sum_remove_all store id orderTotalRaw o h]

/-- A pending order used for concrete instantiations. -/
def C5o1 : Order := ⟨"o1", some "pending", none, none, none⟩

/-- A two-order store. -/
def C5store : List Order := [C5o1, ⟨"o2", some "completed", none, none, none⟩]

/-- Witness for C5: deleting the pending order from the two-order store
leaves exactly the other order. -/
theorem C5_delete_order_stats_witness :
    (deleteOrder "o1" C5store).2 = C5store.filter (fun x => x.id != "o1") :=
  (C5_delete_order_stats "o1" C5store C5o1 (by decide)).2.2.1

theorem pending_completed_disjoint (s : String) :
    ¬(isPendingStatus s = true ∧ isCompletedStatus s = true) := by
  intro hand
  obtain ⟨h1, h2⟩ := hand
  simp only [isPendingStatus, Bool.or_eq_true, beq_iff_eq] at h1
  simp only [isCompletedStatus, Bool.or_eq_true, beq_iff_eq] at h2
  rcases h1 with (rfl | rfl) | rfl <;> rcases h2 with (h | h) | h <;> simp at h

/-- C10: in the statistics of `GET /api/orders/stats`, each order increments
at most one of the two counters (`pending`/`shipped`/`processing` count as
pending, `delivered`/`completed`/`paid` as completed, other statuses as
neither), so `pendingOrders + completedOrders ≤ totalOrders`, and the raw
revenue is exactly the sum of the totals of the orders counted as
completed. -/
theorem C10_stats_invariant (orders : List Order) :
    (ordersStatsRaw orders).pendingOrders + (ordersStatsRaw orders).completedOrders
        ≤ (ordersStatsRaw orders).totalOrders
    ∧ (ordersStatsRaw orders).pendingOrders
        = (orders.filter (fun o => isPendingStatus (statusLower o))).length
    ∧ (ordersStatsRaw orders).completedOrders
        = (orders.filter (fun o => isCompletedStatus (statusLower o))).length
    ∧ (∀ o : Order, ¬(isPendingStatus (statusLower o) = true
        ∧ isCompletedStatus (statusLower o) = true))
    ∧ (ordersStatsRaw orders).revenue
        = ((orders.filter (fun o => isCompletedStatus (statusLower o))).map
            orderTotalRaw).sum
    ∧ (ordersStatsResponse orders).pendingOrders
        + (ordersStatsResponse orders).completedOrders
        ≤ (ordersStatsResponse orders).totalOrders := by
  have hd : ∀ o : Order, ¬(isPendingStatus (statusLower o) = true
      ∧ isCompletedStatus (statusLower o) = true) :=
    fun o => pending_completed_disjoint (statusLower o)
  have hle := length_filter_two_disjoint orders
    (fun o => isPendingStatus (statusLower o))
    (fun o => isCompletedStatus (statusLower o)) hd
  refine ⟨?_, ?_, ?_, hd, ?_, ?_⟩ <;>
    simp only [ordersStatsRaw, ordersStatsResponse, foldl_statsStep,
      Nat.zero_add, zero_add]
  all_goals first | rfl | exact hle

/-- Witness for C10 on a concrete order list. -/
theorem C10_stats_invariant_witness :
    (ordersStatsRaw C5store).pendingOrders + (ordersStatsRaw C5store).completedOrders
      ≤ (ordersStatsRaw C5store).totalOrders :=
  (C10_stats_invariant C5store).1

theorem registerApiErrorResponse_success (status : Nat) (errMsg : Option String) :
    (registerApiErrorResponse (α := RegisterData) status errMsg).success = false := by
  rcases errMsg with _ | m
  · rfl
  · simp only [registerApiErrorResponse]
    split_ifs <;> rfl

/-- C3 (amended): every `POST /api/auth/register` that succeeds (201 with
`success: true`) did create the Firebase Auth record (the signUp call
succeeded), and the admin profile document — trimmed name, trimmed email,
the new uid, a creation timestamp and status `'active'`, keyed by the uid —
is written when the Firestore handle is available and the write succeeds;
when Firestore is unavailable or the write fails the 201 is still returned
and no document is created. -/
theorem C3_register_creates_profile (b : RegisterBody) (signUp : SignUpOutcome)
    (dbA dbW : Bool) (now : Int) (dev : Bool)
    (store : List (String × AdminDoc))
    (h201 : (register b signUp dbA dbW now dev store).1.status = 201)
    (hsucc : (register b signUp dbA dbW now dev store).1.success = true) :
    ∃ localId email idToken refreshToken,
      signUp = .ok localId email idToken refreshToken
      ∧ (register b signUp dbA dbW now dev store).1.body
          = some ⟨localId, email, jsTrim (b.name.getD ""), idToken, refreshToken⟩
      ∧ (dbA = true → dbW = true →
          (register b signUp dbA dbW now dev store).2
            = storeSet store localId
                ⟨jsTrim (b.name.getD ""), jsTrim (b.email.getD ""), localId, now,
                  "active"⟩)
      ∧ ((dbA && dbW) = false →
          (register b signUp dbA dbW now dev store).2 = store) := by
  have hm : registerMissingFields b = [] := by
    by_contra hm
    simp only [register] at hsucc
    rw [if_pos hm] at hsucc
    simp [routeError] at hsucc
  have hpw : b.password = b.confirmPassword := by
    by_contra hp
    simp only [register] at hsucc
    rw [if_neg (by simp [hm]), if_pos hp] at hsucc
    simp [routeError] at hsucc
  have hlen : ¬((b.password.getD "").length < 6) := by
    by_contra hl
    simp only [register] at hsucc
    rw [if_neg (by simp [hm]), if_neg (by simp [hpw]), if_pos hl] at hsucc
    simp [routeError] at hsucc
  have hem : emailRegexTest (b.email.getD "") = true := by
    by_contra he
    simp only [register] at hsucc
    rw [if_neg (by simp [hm]), if_neg (by simp [hpw]), if_neg hlen,
      if_pos (by simpa using he)] at hsucc
    simp [routeError] at hsucc
  simp only [register] at h201 hsucc ⊢
  rw [if_neg (by simp [hm]), if_neg (by simp [hpw]), if_neg hlen,
    if_neg (by simp [hem])] at h201 hsucc ⊢
  rcases signUp with msg | ⟨status, errMsg⟩ | _ | ⟨localId, email, idToken, refreshToken⟩
  · split at hsucc <;> simp_all [routeErrorDev]
  · split at hsucc <;> simp_all [registerApiErrorResponse_success]
  · split at hsucc <;> simp_all [routeError]
  · refine ⟨localId, email, idToken, refreshToken, rfl, rfl, ?_, ?_⟩
    · intro ha hw
      subst ha; subst hw
      rfl
    · intro hf
      simp [hf]

/-- A valid registration body. -/
def C3body : RegisterBody :=
  ⟨some "Ann", some "a@b.co", some "secret1", some "secret1"⟩

/-- Counterexample to C3 as stated: when the Admin-SDK Firestore handle is
unavailable, a registration still succeeds with 201 — the Firebase Auth
record is created but no admin profile document is written (the `admin`
collection stays empty). -/
theorem C3_register_counterexample :
    (register C3body (.ok "uid1" "a@b.co" "tok" "ref") false true 5 false []).1.status
      = 201
    ∧ (register C3body (.ok "uid1" "a@b.co" "tok" "ref") false true 5 false []).1.success
      = true
    ∧ (register C3body (.ok "uid1" "a@b.co" "tok" "ref") false true 5 false []).2
      = [] := by
  refine ⟨?_, ?_, ?_⟩ <;> decide

/-- Witness for C3 with Firestore available: the profile document is
written. -/
theorem C3_register_creates_profile_witness :
    ∃ localId email idToken refreshToken,
      (SignUpOutcome.ok "uid1" "a@b.co" "tok" "ref")
        = SignUpOutcome.ok localId email idToken refreshToken
      ∧ (register C3body (.ok "uid1" "a@b.co" "tok" "ref") true true 5 false []).1.body
          = some ⟨localId, email, jsTrim (C3body.name.getD ""), idToken, refreshToken⟩
      ∧ (true = true → true = true →
          (register C3body (.ok "uid1" "a@b.co" "tok" "ref") true true 5 false []).2
            = storeSet [] localId
                ⟨jsTrim (C3body.name.getD ""), jsTrim (C3body.email.getD ""), localId, 5,
                  "active"⟩)
      ∧ ((true && true) = false →
          (register C3body (.ok "uid1" "a@b.co" "tok" "ref") true true 5 false []).2
            = []) :=
  C3_register_creates_profile C3body (.ok "uid1" "a@b.co" "tok" "ref") true true 5
    false [] (by decide) (by decide)

theorem verifyToken_fallback (h : String) (admin : AdminVerifyOutcome)
    (decodePart : String → Option JwtPayload) (nowSec : ℚ) (dev : Bool)
    (hadmin : admin = .unavailable ∨ ∃ m, admin = .throws m)
    (hstart : jsStartsWith h "Bearer " = true)
    (htok : (jsSplit h "Bearer ").getD 1 "" ≠ "") :
    verifyToken (some h) admin decodePart nowSec dev
      = jwtFallback ((jsSplit h "Bearer ").getD 1 "") decodePart nowSec dev := by
  rcases hadmin with rfl | ⟨m, rfl⟩ <;>
    (simp only [verifyToken]
     rw [if_neg (by simp [hstart]), if_neg (by simpa using htok)])

theorem jwtFallback_cases (token : String)
    (decodePart : String → Option JwtPayload) (nowSec : ℚ) (dev : Bool) :
    ((jsSplit token ".").length ≠ 3 →
      jwtFallback token decodePart nowSec dev
        = .response (sendError "Invalid token" 401 dev none))
    ∧ ((jsSplit token ".").length = 3 →
        (decodePart ((jsSplit token ".").getD 1 "") = none →
          jwtFallback token decodePart nowSec dev
            = .response (sendError "Invalid token" 401 dev none))
        ∧ (∀ payload, decodePart ((jsSplit token ".").getD 1 "") = some payload →
          ((truthyStr payload.sub = false ∨ truthyStr payload.email = false) →
            jwtFallback token decodePart nowSec dev
              = .response (sendError "Invalid token" 401 dev none))
          ∧ (truthyStr payload.sub = true → truthyStr payload.email = true →
              expExpired payload.exp nowSec = true →
              jwtFallback token decodePart nowSec dev
                = .response (sendError "Token expired" 401 dev none))
          ∧ (truthyStr payload.sub = true → truthyStr payload.email = true →
              expExpired payload.exp nowSec = false →
              jwtFallback token decodePart nowSec dev
                = .authorized ⟨payload.sub.getD "", payload.email.getD "",
                    payload.email_verified.getD false⟩))) := by
  refine ⟨?_, ?_⟩
  · intro hlen
    simp only [jwtFallback]
    rw [if_pos hlen]
  · intro hlen
    have hnlen : ¬((jsSplit token ".").length ≠ 3) := by simp [hlen]
    constructor
    · intro hdec
      simp only [jwtFallback]
      rw [if_neg hnlen, hdec]
    · intro payload hdec
      refine ⟨?_, ?_, ?_⟩
      · intro hbad
        simp only [jwtFallback]
        rw [if_neg hnlen, hdec]
        split
        · rename_i heq
          exact absurd heq (by simp)
        · rename_i p heq
          obtain rfl : payload = p := by injection heq
          rw [if_pos (by rcases hbad with hb | hb <;> simp [hb])]
      · intro hs he hexp
        simp only [jwtFallback]
        rw [if_neg hnlen, hdec]
        split
        · rename_i heq
          exact absurd heq (by simp)
        · rename_i p heq
          obtain rfl : payload = p := by injection heq
          rw [if_neg (by simp [hs, he]), if_pos hexp]
      · intro hs he hexp
        simp only [jwtFallback]
        rw [if_neg hnlen, hdec]
        split
        · rename_i heq
          exact absurd heq (by simp)
        · rename_i p heq
          obtain rfl : payload = p := by injection heq
          rw [if_neg (by simp [hs, he]), if_neg (by simp [hexp])]

/-- C8 (amended): when Firebase Admin SDK token verification is unavailable
or throws, `verifyToken` accepts any Bearer token splitting into three
dot-separated parts whose decoded middle part has truthy (non-empty) `sub`
and `email` claims and whose `exp` claim — checked only when truthy, i.e.
present and nonzero — is not in the past, without verifying any signature,
setting `req.user.uid` to the payload's `sub`; malformed JWTs (wrong part
count, undecodable payload, falsy `sub` or `email`) receive 401, and a
truthy `exp` in the past receives 401 `Token expired` (an `exp` of 0 is
treated as absent and accepted). -/
theorem C8_jwt_fallback (h : String) (admin : AdminVerifyOutcome)
    (decodePart : String → Option JwtPayload) (nowSec : ℚ) (dev : Bool)
    (hadmin : admin = .unavailable ∨ ∃ m, admin = .throws m)
    (hstart : jsStartsWith h "Bearer " = true)
    (htok : (jsSplit h "Bearer ").getD 1 "" ≠ "") :
    ((jsSplit ((jsSplit h "Bearer ").getD 1 "") ".").length ≠ 3 →
      verifyToken (some h) admin decodePart nowSec dev
        = .response (sendError "Invalid token" 401 dev none))
    ∧ ((jsSplit ((jsSplit h "Bearer ").getD 1 "") ".").length = 3 →
        (decodePart ((jsSplit ((jsSplit h "Bearer ").getD 1 "") ".").getD 1 "") = none →
          verifyToken (some h) admin decodePart nowSec dev
            = .response (sendError "Invalid token" 401 dev none))
        ∧ (∀ payload,
            decodePart ((jsSplit ((jsSplit h "Bearer ").getD 1 "") ".").getD 1 "")
              = some payload →
          ((truthyStr payload.sub = false ∨ truthyStr payload.email = false) →
            verifyToken (some h) admin decodePart nowSec dev
              = .response (sendError "Invalid token" 401 dev none))
          ∧ (truthyStr payload.sub = true → truthyStr payload.email = true →
              expExpired payload.exp nowSec = true →
              verifyToken (some h) admin decodePart nowSec dev
                = .response (sendError "Token expired" 401 dev none))
          ∧ (truthyStr payload.sub = true → truthyStr payload.email = true →
              expExpired payload.exp nowSec = false →
              verifyToken (some h) admin decodePart nowSec dev
                = .authorized ⟨payload.sub.getD "", payload.email.getD "",
                    payload.email_verified.getD false⟩))) := by
  rw [verifyToken_fallback h admin decodePart nowSec dev hadmin hstart htok]
  exact jwtFallback_cases ((jsSplit h "Bearer ").getD 1 "") decodePart nowSec dev

/-- A JWT payload carrying `exp: 0`. -/
def C8payload : JwtPayload := ⟨some "user-1", some "u@x.co", none, some 0⟩

/-- A decode oracle returning `C8payload` for the middle part `bbb`. -/
def C8decode : String → Option JwtPayload :=
  fun s => if s == "bbb" then some C8payload else none

/-- Counterexample to C8 as stated: a well-formed token whose payload has
`exp: 0` — an `exp` claim that is present and far in the past — is accepted
(and `req.user.uid` set) instead of receiving 401, because the middleware
tests `payload.exp &&` first and `0` is falsy. -/
theorem C8_jwt_fallback_counterexample :
    (C8payload.exp = some 0 ∧ ((0 : ℚ) < 1760000000))
    ∧ verifyToken (some "Bearer aaa.bbb.ccc") .unavailable C8decode 1760000000 false
      = .authorized ⟨"user-1", "u@x.co", false⟩ := by
  refine ⟨⟨rfl, by norm_num⟩, ?_⟩
  have h1 := verifyToken_fallback "Bearer aaa.bbb.ccc" .unavailable C8decode
    1760000000 false (Or.inl rfl) (by decide) (by decide)
  rw [h1]
  have h2 := (jwtFallback_cases ((jsSplit "Bearer aaa.bbb.ccc" "Bearer ").getD 1 "")
    C8decode 1760000000 false).2 (by decide)
  have h3 := h2.2 C8payload (by rfl)
  exact h3.2.2 (by decide) (by decide) (by simp [C8payload, expExpired])

/-- A JWT payload with no `exp` claim. -/
def C8wpayload : JwtPayload := ⟨some "u2", some "e@x.co", none, none⟩

/-- A decode oracle returning `C8wpayload` for the middle part `bbb`. -/
def C8wdecode : String → Option JwtPayload :=
  fun s => if s == "bbb" then some C8wpayload else none

/-- Witness for C8: a valid unexpired token is accepted with
`req.user.uid` set from `sub`. -/
theorem C8_jwt_fallback_witness :
    verifyToken (some "Bearer aaa.bbb.ccc") .unavailable C8wdecode 100 false
      = .authorized ⟨"u2", "e@x.co", false⟩ :=
  ((C8_jwt_fallback "Bearer aaa.bbb.ccc" .unavailable C8wdecode 100 false
      (Or.inl rfl) (by decide) (by decide)).2 (by decide)).2 C8wpayload (by rfl)
    |>.2.2 (by decide) (by decide) (by rfl)

theorem getProducts_fallback (dbA : Bool)
    (adminOut restOut : Except String (List Product)) (dev : Bool) :
    (dbA = true → ∀ msg, adminOut = .error msg →
      FirestoreCall.restGet ∈ (getProductsHandler dbA adminOut restOut dev).2)
    ∧ ((getProductsHandler dbA adminOut restOut dev).1.status = 500
        ↔ (∃ msg, restOut = .error msg)
          ∧ FirestoreCall.restGet ∈ (getProductsHandler dbA adminOut restOut dev).2)
    ∧ (∀ msg, restOut = .error msg →
        FirestoreCall.restGet ∈ (getProductsHandler dbA adminOut restOut dev).2 →
        (getProductsHandler dbA adminOut restOut dev).1.message
            = "Failed to retrieve products"
        ∧ (getProductsHandler dbA adminOut restOut dev).1.errorDetail
            = (if dev then some msg else none)) := by
  rcases dbA <;> rcases adminOut with msgA | prodsA <;>
    rcases restOut with msgR | prodsR <;>
      simp [getProductsHandler, routeSuccess, routeErrorDev]

theorem patchOrder_fallback (statusBody notes : Option String) (dbA : Bool)
    (adminOut restG : Except String (Option Order))
    (restP : Except String Unit) (dev : Bool) :
    (dbA = true → truthyStr statusBody = true →
      validOrderStatuses.contains ((statusBody.getD "").toLower) = true →
      ∀ msg, adminOut = .error msg →
        FirestoreCall.restGet
          ∈ (patchOrderStatus statusBody notes dbA adminOut restG restP dev).2)
    ∧ ((patchOrderStatus statusBody notes dbA adminOut restG restP dev).1.status = 500
        ↔ ((∃ m, restG = .error m)
            ∧ FirestoreCall.restGet
              ∈ (patchOrderStatus statusBody notes dbA adminOut restG restP dev).2)
          ∨ ((∃ m, restP = .error m)
            ∧ FirestoreCall.restPatch
              ∈ (patchOrderStatus statusBody notes dbA adminOut restG restP dev).2))
    ∧ ((patchOrderStatus statusBody notes dbA adminOut restG restP dev).1.status = 500 →
        (patchOrderStatus statusBody notes dbA adminOut restG restP dev).1.message
          = "Failed to update order status"
        ∧ ∃ m, (restG = .error m ∨ restP = .error m)
            ∧ (patchOrderStatus statusBody notes dbA adminOut restG restP dev).1.errorDetail
              = (if dev then some m else none)) := by
  by_cases ht : truthyStr statusBody = true
  · by_cases hv : validOrderStatuses.contains ((statusBody.getD "").toLower) = true
    · have hv' : (statusBody.getD "").toLower ∈ validOrderStatuses := by
        simpa using hv
      rcases dbA <;> rcases adminOut with msgA | (_ | oA) <;>
        rcases restG with msgG | (_ | oG) <;> rcases restP with msgP | u <;>
          simp [patchOrderStatus, ht, hv, hv', routeSuccess, routeError, routeErrorDev]
      all_goals first
        | exact ⟨msgG, Or.inl rfl, rfl⟩
        | exact ⟨msgP, Or.inr rfl, rfl⟩
    · have hv' : ¬ ((statusBody.getD "").toLower ∈ validOrderStatuses) := by
        simpa using hv
      simp [patchOrderStatus, ht, hv, hv', routeError]
  · simp [patchOrderStatus, ht, routeError]

/-- C7 (amended): in the dual-path Firestore handlers (list products, update
order status), an Admin-SDK failure leads to the same operation being
attempted through the Firestore REST API; a 500 is returned exactly when a
REST call that was actually made failed; and the 500 carries the route's
fixed generic message, with the underlying failure attached (under an
`error` field) only in development mode — not as the message. -/
theorem C7_dual_path :
    (∀ (dbA : Bool) (adminOut restOut : Except String (List Product)) (dev : Bool),
      (dbA = true → ∀ msg, adminOut = .error msg →
        FirestoreCall.restGet ∈ (getProductsHandler dbA adminOut restOut dev).2)
      ∧ ((getProductsHandler dbA adminOut restOut dev).1.status = 500
          ↔ (∃ msg, restOut = .error msg)
            ∧ FirestoreCall.restGet ∈ (getProductsHandler dbA adminOut restOut dev).2)
      ∧ (∀ msg, restOut = .error msg →
          FirestoreCall.restGet ∈ (getProductsHandler dbA adminOut restOut dev).2 →
          (getProductsHandler dbA adminOut restOut dev).1.message
              = "Failed to retrieve products"
          ∧ (getProductsHandler dbA adminOut restOut dev).1.errorDetail
              = (if dev then some msg else none)))
    ∧ (∀ (statusBody notes : Option String) (dbA : Bool)
        (adminOut restG : Except String (Option Order))
        (restP : Except String Unit) (dev : Bool),
      (dbA = true → truthyStr statusBody = true →
        validOrderStatuses.contains ((statusBody.getD "").toLower) = true →
        ∀ msg, adminOut = .error msg →
          FirestoreCall.restGet
            ∈ (patchOrderStatus statusBody notes dbA adminOut restG restP dev).2)
      ∧ ((patchOrderStatus statusBody notes dbA adminOut restG restP dev).1.status = 500
          ↔ ((∃ m, restG = .error m)
              ∧ FirestoreCall.restGet
                ∈ (patchOrderStatus statusBody notes dbA adminOut restG restP dev).2)
            ∨ ((∃ m, restP = .error m)
              ∧ FirestoreCall.restPatch
                ∈ (patchOrderStatus statusBody notes dbA adminOut restG restP dev).2))
      ∧ ((patchOrderStatus statusBody notes dbA adminOut restG restP dev).1.status = 500 →
          (patchOrderStatus statusBody notes dbA adminOut restG restP dev).1.message
            = "Failed to update order status"
          ∧ ∃ m, (restG = .error m ∨ restP = .error m)
              ∧ (patchOrderStatus statusBody notes dbA adminOut restG
                  restP dev).1.errorDetail
                = (if dev then some m else none))) :=
  ⟨fun dbA adminOut restOut dev => getProducts_fallback dbA adminOut restOut dev,
   fun statusBody notes dbA adminOut restG restP dev =>
     patchOrder_fallback statusBody notes dbA adminOut restG restP dev⟩

/-- Counterexample to C7 as stated: two different REST failures produce
byte-for-byte identical 500 responses (production mode) with the route's
generic message, so the 500 does not carry the failure as its message. -/
theorem C7_dual_path_counterexample :
    (getProductsHandler true (.error "boom") (.error "rest-failure-one") false).1
      = (getProductsHandler true (.error "boom") (.error "rest-failure-two") false).1
    ∧ (getProductsHandler true (.error "boom") (.error "rest-failure-one") false).1.status
      = 500
    ∧ (getProductsHandler true (.error "boom") (.error "rest-failure-one") false).1.message
      = "Failed to retrieve products" :=
  ⟨rfl, rfl, rfl⟩

/-- Witness for C7 in development mode: the REST failure appears only as
the attached error detail. -/
theorem C7_dual_path_witness :
    (getProductsHandler true (.error "a") (.error "m") true).1.message
      = "Failed to retrieve products"
    ∧ (getProductsHandler true (.error "a") (.error "m") true).1.errorDetail
      = (if true then some "m" else none) :=
  (C7_dual_path.1 true (.error "a") (.error "m") true).2.2 "m" rfl (by decide)

/-- Witness for C6 at a concrete success response. -/
theorem C6_response_shape_witness :
    (sendSuccess .vNull "ok" 200).bodyKeys = ["success", "message", "data"]
    ∧ (sendSuccess .vNull "ok" 200).success = true
    ∧ (sendSuccess .vNull "ok" 200).message = "ok"
    ∧ (sendSuccess .vNull "ok" 200).status = 200 :=
  C6_response_shape.1 .vNull "ok" 200
